import Mathlib

/-!
Shallow embedding of numba's src/numba/_typeof.c: the string-writer byte
buffer, the type-fingerprint encoder, the fingerprint hash-table cache and
the fast-path ndarray typecode table.  All line numbers refer to
src/numba/_typeof.c.  The model assumes an LP64 platform (sizeof(npy_intp)
= 8, the usual numpy type_num aliases) and a modern numpy API
(NPY_API_VERSION >= 7, so the datetime branch of
compute_dtype_fingerprint is compiled in).  malloc is assumed to succeed;
the unspecified initial content of malloc'ed memory is supplied by an
explicit environment (Junk below).
-/

namespace Typeof

/- Opcode byte values from enum opcode (lines 141-156), as ASCII codes. -/

def OP_START_TUPLE : Nat := 40
def OP_END_TUPLE : Nat := 41
def OP_INT : Nat := 105
def OP_FLOAT : Nat := 102
def OP_COMPLEX : Nat := 99
def OP_BOOL : Nat := 63
def OP_BYTEARRAY : Nat := 97
def OP_BYTES : Nat := 98
def OP_NONE : Nat := 110
def OP_BUFFER : Nat := 66
def OP_NP_SCALAR : Nat := 83
def OP_NP_ARRAY : Nat := 65
def OP_NP_DTYPE : Nat := 68

/-- Little-endian byte list of a 32-bit value, exactly the four stores
performed by string_writer_put_int32 (lines 92-103). -/
def le32 (v : Nat) : List Nat :=
  [v % 256, v / 256 % 256, v / 65536 % 256, v / 16777216 % 256]

/-- Little-endian byte list of a pointer-sized value, the eight stores
performed by string_writer_put_intp on LP64 (lines 105-123). -/
def le64 (v : Nat) : List Nat :=
  [v % 256, v / 2 ^ 8 % 256, v / 2 ^ 16 % 256, v / 2 ^ 24 % 256,
   v / 2 ^ 32 % 256, v / 2 ^ 40 % 256, v / 2 ^ 48 % 256, v / 2 ^ 56 % 256]

/-- Environment giving malloc'ed memory its unspecified initial content:
junk a i is the byte at offset i of the a-th heap block allocated. -/
abbrev Junk := Nat → Nat → Nat

/-- string_writer_t (lines 41-46) plus the bookkeeping the memory model
needs.  data is the content of the buffer buf currently points at (the
40-byte inline static_buf while isStatic is true, a heap block once the
writer has grown); n and allocated are the struct fields of those names;
mallocs counts heap allocations performed so far (it indexes Junk); oob
records that a store past the end of the allocation happened (heap
overflow in the C source); emitted is a ghost log of every byte the put
functions were asked to append, in order. -/
structure Writer where
  isStatic : Bool
  data : List Nat
  n : Nat
  allocated : Nat
  mallocs : Nat
  oob : Bool
  emitted : List Nat
deriving DecidableEq

/-- string_writer_init (lines 48-54).  The inline buffer starts
uninitialized in C; its initial content never reaches the output while the
code is correct, zeros stand in for it. -/
def string_writer_init : Writer :=
  ⟨true, List.replicate 40 0, 0, 40, 0, false, []⟩

/-- string_writer_ensure (lines 63-81), faithful to the source: newsize is
(allocated << 2) + 1; the block malloc'ed when leaving the inline buffer
is NOT initialized from static_buf (malloc, line 71, with no copy); the
allocated field is NOT updated after growing.  realloc (line 73) preserves
the old content up to the new size.  Allocation failure is not modelled. -/
def string_writer_ensure (junk : Junk) (w : Writer) (bytes : Nat) : Writer :=
  if w.n + bytes ≤ w.allocated then w
  else
    let newsize := w.allocated * 4 + 1
    if w.isStatic then
      { w with isStatic := false,
               data := (List.range newsize).map (junk w.mallocs),
               mallocs := w.mallocs + 1 }
    else
      { w with data := (w.data ++
                 (List.range (newsize - w.data.length)).map (junk w.mallocs)).take newsize,
               mallocs := w.mallocs + 1 }

/-- One store buf[i] = c; a store past the end of the current allocation
is recorded in oob instead of writing anywhere. -/
def writeAt (w : Writer) (i c : Nat) : Writer :=
  if i < w.data.length then { w with data := w.data.set i c }
  else { w with oob := true }

/-- Store the bytes bs at offsets n, n+1, ..., advance n by their number,
and log them in emitted. -/
def writeSeq (w : Writer) (bs : List Nat) : Writer :=
  let w2 := bs.enum.foldl (fun a p => writeAt a (w.n + p.1) p.2) w
  { w2 with n := w.n + bs.length, emitted := w.emitted ++ bs }

/-- string_writer_put_char (lines 83-90). -/
def string_writer_put_char (junk : Junk) (w : Writer) (c : Nat) : Writer :=
  writeSeq (string_writer_ensure junk w 1) [c]

/-- string_writer_put_int32 (lines 92-103). -/
def string_writer_put_int32 (junk : Junk) (w : Writer) (v : Nat) : Writer :=
  writeSeq (string_writer_ensure junk w 4) (le32 v)

/-- string_writer_put_intp (lines 105-123) with sizeof(npy_intp) = 8. -/
def string_writer_put_intp (junk : Junk) (w : Writer) (v : Nat) : Writer :=
  writeSeq (string_writer_ensure junk w 8) (le64 v)

/-- string_writer_put_string (lines 125-139).  none models a NULL char
pointer; some bs models a C string holding the bytes bs (no embedded 0);
the memcpy covers the terminating 0. -/
def string_writer_put_string (junk : Junk) (w : Writer) (s : Option (List Nat)) : Writer :=
  match s with
  | Option.none => string_writer_put_char junk w 0
  | Option.some bs => writeSeq (string_writer_ensure junk w (bs.length + 1)) (bs ++ [0])

/-- C conversion of an int to char (signed, wrapping, as on every
mainstream compiler): the representative of v mod 256 in [-128, 127]. -/
def c_char_of_int (v : Int) : Int := (v + 128) % 256 - 128

/-- C conversion of a char value to the unsigned int parameter of
string_writer_put_int32: reduction mod 2^32 (sign extension). -/
def c_uint_of_int (v : Int) : Nat := (v % 4294967296).toNat

/-- The fields of PyArray_Descr consumed by compute_dtype_fingerprint:
type_num; the descriptor object's own address (serialized by the NPY_VOID
branch); and, meaningful for datetime/timedelta dtypes, the metadata base
code and multiplier (md->base and md->num, the latter a C int).
Relevant type_num values on LP64: NPY_OBJECT = 17, NPY_VOID = 20,
NPY_DATETIME = 21, NPY_TIMEDELTA = 22. -/
structure DtypeDescr where
  type_num : Nat
  ptr : Nat
  base : Nat
  num : Int
deriving DecidableEq

/-- compute_dtype_fingerprint (lines 172-197): a char tag for every
type_num below NPY_OBJECT; tag plus descriptor address for NPY_VOID;
tag, base char and (char)num as an int32 for datetime dtypes; everything
else is unrecognized (modelled as Option.none). -/
def compute_dtype_fingerprint (junk : Junk) (w : Writer) (d : DtypeDescr) : Option Writer :=
  if d.type_num < 17 then
    Option.some (string_writer_put_char junk w d.type_num)
  else if d.type_num = 20 then
    Option.some (string_writer_put_intp junk (string_writer_put_char junk w d.type_num) d.ptr)
  else if d.type_num = 21 ∨ d.type_num = 22 then
    Option.some (string_writer_put_int32 junk
      (string_writer_put_char junk (string_writer_put_char junk w d.type_num) (d.base % 256))
      (c_uint_of_int (c_char_of_int d.num)))
  else Option.none

/-- The PyArrayObject attributes read by the source: PyArray_NDIM, the
contiguity flags, NPY_ARRAY_WRITEABLE, NPY_ARRAY_ALIGNED and
PyArray_DESCR. -/
structure ArrayVal where
  ndim : Nat
  c_contig : Bool
  f_contig : Bool
  writeable : Bool
  aligned : Bool
  descr : DtypeDescr
deriving DecidableEq

/-- A Py_buffer view as read by the generic-buffer branch. -/
structure BufferView where
  ndim : Nat
  c_contig : Bool
  f_contig : Bool
  readonly : Bool
  format : Option (List Nat)
deriving DecidableEq

/-- A value supporting the buffer protocol: the result of requesting a
writable view, the result of requesting a plain view (each Option.none on
failure), and the address of the value's Python type object. -/
structure BufferVal where
  writableView : Option BufferView
  readonlyView : Option BufferView
  typePtr : Nat
deriving DecidableEq

/-- The closed union of runtime values as discriminated by the sequential
dynamic checks of compute_fingerprint (lines 199-299).  boolVal values are
instances of the bool type, which in CPython is a subtype of int, so they
satisfy the PyLong_Check test of line 206 as well; the source reaches that
test only after PyBool_Check (line 204) has failed, which the boolVal arm
of the encoder reflects.  opaqueVal is a value satisfying none of the
checks. -/
inductive PyVal where
  | noneVal
  | boolVal (b : Bool)
  | intVal
  | floatVal
  | complexVal
  | tupleVal (elts : List PyVal)
  | bytesVal
  | bytearrayVal
  | npScalarVal (descr : DtypeDescr)
  | arrayVal (a : ArrayVal)
  | bufferVal (b : BufferVal)
  | dtypeVal (d : DtypeDescr)
  | opaqueVal

/-- PyBool_Check (line 204). -/
def PyBool_Check : PyVal → Bool
  | .boolVal _ => true
  | _ => false

/-- PyLong_Check (line 206): true for int values and, because bool
subclasses int in CPython, for bool values too. -/
def PyLong_Check : PyVal → Bool
  | .boolVal _ => true
  | .intVal => true
  | _ => false

/-- The two-step view acquisition of lines 262-265: try a writable
buffer, fall back on a read-only one. -/
def acquireView (b : BufferVal) : Option BufferView :=
  match b.writableView with
  | Option.some v => Option.some v
  | Option.none => b.readonlyView

mutual

/-- compute_fingerprint (lines 199-299).  Option.none models returning -1
with the NotImplementedError set by fingerprint_unrecognized (the only
failure source kept by the model, since allocation is assumed to
succeed). -/
def compute_fingerprint (junk : Junk) (v : PyVal) (w : Writer) : Option Writer :=
  match v with
  | .noneVal => Option.some (string_writer_put_char junk w OP_NONE)
  | .boolVal _ => Option.some (string_writer_put_char junk w OP_BOOL)
  | .intVal => Option.some (string_writer_put_char junk w OP_INT)
  | .floatVal => Option.some (string_writer_put_char junk w OP_FLOAT)
  | .complexVal => Option.some (string_writer_put_char junk w OP_COMPLEX)
  | .tupleVal elts =>
      match fingerprint_elts junk elts (string_writer_put_char junk w OP_START_TUPLE) with
      | Option.some w2 => Option.some (string_writer_put_char junk w2 OP_END_TUPLE)
      | Option.none => Option.none
  | .bytesVal => Option.some (string_writer_put_char junk w OP_BYTES)
  | .bytearrayVal => Option.some (string_writer_put_char junk w OP_BYTEARRAY)
  | .npScalarVal d =>
      compute_dtype_fingerprint junk (string_writer_put_char junk w OP_NP_SCALAR) d
  | .arrayVal a =>
      let w1 := string_writer_put_char junk w OP_NP_ARRAY
      let w2 := string_writer_put_int32 junk w1 a.ndim
      let w3 := string_writer_put_char junk w2
        (if a.c_contig then 67 else if a.f_contig then 70 else 65)
      let w4 := string_writer_put_char junk w3 (if a.writeable then 87 else 82)
      compute_dtype_fingerprint junk w4 a.descr
  | .bufferVal b =>
      match acquireView b with
      | Option.none => Option.none
      | Option.some view =>
          let w1 := string_writer_put_char junk w OP_BUFFER
          let w2 := string_writer_put_int32 junk w1 view.ndim
          let w3 := string_writer_put_char junk w2
            (if view.c_contig then 67 else if view.f_contig then 70 else 65)
          let w4 := string_writer_put_char junk w3 (if view.readonly then 82 else 87)
          let w5 := string_writer_put_string junk w4 view.format
          Option.some (string_writer_put_intp junk w5 b.typePtr)
  | .dtypeVal d =>
      compute_dtype_fingerprint junk (string_writer_put_char junk w OP_NP_DTYPE) d
  | .opaqueVal => Option.none

/-- The element loop of the tuple branch (lines 216-217). -/
def fingerprint_elts (junk : Junk) (vs : List PyVal) (w : Writer) : Option Writer :=
  match vs with
  | [] => Option.some w
  | v :: rest =>
      match compute_fingerprint junk v w with
      | Option.some w2 => fingerprint_elts junk rest w2
      | Option.none => Option.none

end

/-- typeof_compute_fingerprint (lines 301-319): run the encoder on a fresh
writer and return the first n bytes of the buffer buf points at (what
PyBytes_FromStringAndSize(w.buf, w.n) reads). -/
def typeof_compute_fingerprint (junk : Junk) (v : PyVal) : Option (List Nat) :=
  (compute_fingerprint junk v string_writer_init).map (fun w => w.data.take w.n)

/-- The byte stream compute_dtype_fingerprint asks the writer to append
(the emitted ghost log); proven below to agree with the writer-level
definition. -/
def dtype_bytes (d : DtypeDescr) : Option (List Nat) :=
  if d.type_num < 17 then Option.some [d.type_num]
  else if d.type_num = 20 then Option.some (d.type_num :: le64 d.ptr)
  else if d.type_num = 21 ∨ d.type_num = 22 then
    Option.some ([d.type_num, d.base % 256] ++ le32 (c_uint_of_int (c_char_of_int d.num)))
  else Option.none

mutual

/-- The byte stream compute_fingerprint asks the writer to append for a
value; proven below to agree with the writer-level definition. -/
def fpBytes (v : PyVal) : Option (List Nat) :=
  match v with
  | .noneVal => Option.some [OP_NONE]
  | .boolVal _ => Option.some [OP_BOOL]
  | .intVal => Option.some [OP_INT]
  | .floatVal => Option.some [OP_FLOAT]
  | .complexVal => Option.some [OP_COMPLEX]
  | .tupleVal elts =>
      (fpBytesList elts).map (fun m => OP_START_TUPLE :: (m ++ [OP_END_TUPLE]))
  | .bytesVal => Option.some [OP_BYTES]
  | .bytearrayVal => Option.some [OP_BYTEARRAY]
  | .npScalarVal d => (dtype_bytes d).map (fun db => OP_NP_SCALAR :: db)
  | .arrayVal a =>
      (dtype_bytes a.descr).map (fun db =>
        OP_NP_ARRAY :: (le32 a.ndim ++
          [if a.c_contig then 67 else if a.f_contig then 70 else 65,
           if a.writeable then 87 else 82] ++ db))
  | .bufferVal b =>
      match acquireView b with
      | Option.none => Option.none
      | Option.some view =>
          Option.some (OP_BUFFER :: (le32 view.ndim ++
            [if view.c_contig then 67 else if view.f_contig then 70 else 65,
             if view.readonly then 82 else 87] ++
            (match view.format with
             | Option.none => [0]
             | Option.some bs => bs ++ [0]) ++ le64 b.typePtr))
  | .dtypeVal d => (dtype_bytes d).map (fun db => OP_NP_DTYPE :: db)
  | .opaqueVal => Option.none

/-- Concatenation of the byte streams of a list of values, failing when
one of them is unrecognized. -/
def fpBytesList (vs : List PyVal) : Option (List Nat) :=
  match vs with
  | [] => Option.some []
  | v :: rest =>
      match fpBytes v with
      | Option.none => Option.none
      | Option.some b =>
          match fpBytesList rest with
          | Option.none => Option.none
          | Option.some m => Option.some (b ++ m)

end


/-- The FNV hash of hash_writer (lines 391-409) over the writer's first n
buffer bytes, on a 64-bit Py_uhash_t. -/
def hash_writer (bs : List Nat) : Nat :=
  if bs.length > 0 then
    let x0 := Nat.xor 0 ((bs.headD 0) <<< 7)
    let x1 := bs.foldl (fun x b => Nat.xor (1000003 * x % 2 ^ 64) b) x0
    let x2 := Nat.xor x1 bs.length
    if x2 = 2 ^ 64 - 1 then 2 ^ 64 - 2 else x2
  else 0

/-- An entry of fingerprint_hashtable.  The key is the string_writer_t
struct malloc'ed and filled by memcpy(key, &w, ...) at lines 461-467: its
n field (and the hash computed at insertion time over the bytes then
present, kept in bytes here) are stable, but its buf field is the POINTER
copied from the stack writer.  isStatic records whether that pointer was
w.static_buf, i.e. the address of an inline buffer inside the now-dead
stack frame of typecode_using_fingerprint, rather than an owned heap
block. -/
structure FPEntry where
  bytes : List Nat
  isStatic : Bool
  n : Nat
  value : Int
deriving DecidableEq

/-- The bytes a later compare_writer call reads through the stored key's
buf pointer: the owned heap block still holds the inserted bytes, while a
dangling static_buf pointer reads whatever the memory mem of that region
holds at lookup time (undefined behavior in C; mem is the 40-byte content
of the dead frame's inline buffer region). -/
def observed (mem : List Nat) (e : FPEntry) : List Nat :=
  if e.isStatic then mem.take e.n else e.bytes

/-- _Py_HASHTABLE_GET with hash_writer and compare_writer (lines 391-419,
449): an entry matches when its stored hash equals the probe's hash and
compare_writer (n fields equal, memcmp of n bytes equal) succeeds. -/
def lookup_fingerprint (mem : List Nat) (table : List FPEntry) (pn : Nat)
    (pbytes : List Nat) : Option FPEntry :=
  table.find? (fun e =>
    hash_writer pbytes == hash_writer e.bytes && pn == e.n
      && pbytes == observed mem e)

/-- The process-wide mutable state: the fingerprint hash table and the
cached_arycode direct-lookup grid (line 485). -/
structure TCState where
  table : List FPEntry
  arycode : Nat → Nat → Nat → Int

/-- State after typeof_init (lines 585-645): empty fingerprint table
(created lazily, lines 427-435) and cached_arycode memset to 0xFF, i.e.
every slot holds the int -1 (line 638). -/
def initial_state : TCState :=
  { table := [], arycode := fun _ _ _ => -1 }

/-- Result of one classification call: the returned typecode, the new
process state, and a ghost count of how many times the resolver (the
typeof_pyval callback behind _typecode_fallback, lines 350-373) was
invoked during the call. -/
structure TCResult where
  ret : Int
  state : TCState
  resolverCalls : Nat

/-- typecode_using_fingerprint (lines 421-475).  The resolver models
_typecode_fallback: a pure function of the value returning the typecode
(or a negative value on failure).  junk is this call's malloc environment
and mem the content of the dead-frame static_buf region read through
dangling stored keys (see observed).  On an unrecognized value the
NotImplementedError is cleared and the resolver is called uncached (lines
441-446); on a hit the stored typecode is returned; on a miss the
resolver's result, when non-negative, is inserted with the memcpy'ed key
(lines 459-473). -/
def typecode_using_fingerprint (resolver : PyVal → Int) (junk : Junk)
    (mem : List Nat) (st : TCState) (v : PyVal) : TCResult :=
  match compute_fingerprint junk v string_writer_init with
  | Option.none =>
      { ret := resolver v, state := st, resolverCalls := 1 }
  | Option.some w =>
      match lookup_fingerprint mem st.table w.n (w.data.take w.n) with
      | Option.some e => { ret := e.value, state := st, resolverCalls := 0 }
      | Option.none =>
          if 0 ≤ resolver v then
            { ret := resolver v,
              state := { st with table := st.table ++
                [{ bytes := w.data.take w.n, isStatic := w.isStatic, n := w.n,
                   value := resolver v }] },
              resolverCalls := 1 }
          else
            { ret := resolver v, state := st, resolverCalls := 1 }

/-- dtype_num_to_typecode (lines 489-533) with the LP64 numpy aliases
spelled out: NPY_INT8 = 1 (BYTE), NPY_INT16 = 3 (SHORT), NPY_INT32 = 5
(INT), NPY_INT64 = 7 (LONG), NPY_UINT8 = 2, NPY_UINT16 = 4, NPY_UINT32 =
6, NPY_UINT64 = 8, NPY_FLOAT32 = 11, NPY_FLOAT64 = 12, NPY_COMPLEX64 =
14, NPY_COMPLEX128 = 15. -/
def dtype_num_to_typecode (type_num : Nat) : Int :=
  if type_num = 1 then 0
  else if type_num = 3 then 1
  else if type_num = 5 then 2
  else if type_num = 7 then 3
  else if type_num = 2 then 4
  else if type_num = 4 then 5
  else if type_num = 6 then 6
  else if type_num = 8 then 7
  else if type_num = 11 then 8
  else if type_num = 12 then 9
  else if type_num = 14 then 10
  else if type_num = 15 then 11
  else -1

/-- PyArray_ISCARRAY: NPY_ARRAY_C_CONTIGUOUS together with
NPY_ARRAY_BEHAVED = NPY_ARRAY_ALIGNED | NPY_ARRAY_WRITEABLE. -/
def PyArray_ISCARRAY (a : ArrayVal) : Bool := a.c_contig && a.writeable && a.aligned

/-- PyArray_ISFARRAY: NPY_ARRAY_F_CONTIGUOUS together with
NPY_ARRAY_BEHAVED. -/
def PyArray_ISFARRAY (a : ArrayVal) : Bool := a.f_contig && a.writeable && a.aligned

/-- The layout index computed by typecode_ndarray (lines 540-549): 1 for
ISCARRAY, else 2 for ISFARRAY, else 0. -/
def array_fast_layout (a : ArrayVal) : Nat :=
  if PyArray_ISCARRAY a then 1 else if PyArray_ISFARRAY a then 2 else 0

/-- The layout byte the fingerprint encoder writes for the same array
(lines 242-247): C if C-contiguous, else F if F-contiguous, else A. -/
def fingerprint_layout_char (a : ArrayVal) : Nat :=
  if a.c_contig then 67 else if a.f_contig then 70 else 65

/-- The fast-path layout index rendered as the layout class it stands
for: slot 1 is the C slot, slot 2 the F slot, slot 0 the A slot. -/
def fast_layout_char (a : ArrayVal) : Nat :=
  if array_fast_layout a = 1 then 67 else if array_fast_layout a = 2 then 70 else 65

/-- typecode_ndarray (lines 535-572): rank outside [1,5] or a dtype
outside the 12-entry table falls back to the fingerprint path with the
array value itself; otherwise the cached_arycode slot is consulted, a -1
slot being populated from the resolver (the result is stored
unconditionally, line 565). -/
def typecode_ndarray (resolver : PyVal → Int) (junk : Junk) (mem : List Nat)
    (st : TCState) (a : ArrayVal) : TCResult :=
  if a.ndim = 0 ∨ 5 < a.ndim then
    typecode_using_fingerprint resolver junk mem st (.arrayVal a)
  else if dtype_num_to_typecode a.descr.type_num < 0 then
    typecode_using_fingerprint resolver junk mem st (.arrayVal a)
  else if st.arycode (a.ndim - 1) (array_fast_layout a)
      (dtype_num_to_typecode a.descr.type_num).toNat = -1 then
    { ret := resolver (.arrayVal a),
      state := { st with arycode := fun i j k =>
        (if i = a.ndim - 1 ∧ j = array_fast_layout a
            ∧ k = (dtype_num_to_typecode a.descr.type_num).toNat
         then resolver (.arrayVal a)
         else st.arycode i j k) },
      resolverCalls := 1 }
  else
    { ret := st.arycode (a.ndim - 1) (array_fast_layout a)
        (dtype_num_to_typecode a.descr.type_num).toNat,
      state := st, resolverCalls := 0 }

/-- typeof_typecode (lines 574-583): values whose type is a subtype of
the ndarray type go to typecode_ndarray, everything else to
typecode_using_fingerprint. -/
def typeof_typecode (resolver : PyVal → Int) (junk : Junk) (mem : List Nat)
    (st : TCState) (v : PyVal) : TCResult :=
  match v with
  | .arrayVal a => typecode_ndarray resolver junk mem st a
  | _ => typecode_using_fingerprint resolver junk mem st v

/- Concrete inputs and environments used by the claim theorems below. -/

/-- A malloc environment handing out all-zero blocks. -/
def junk0 : Junk := fun _ _ => 0

/-- A malloc environment handing out all-one blocks. -/
def junk1 : Junk := fun _ _ => 1

/-- One possible content of the dead-frame static_buf region read through
a dangling stored key: all zeros. -/
def mem0 : List Nat := List.replicate 40 0

/-- A list of n int values. -/
def intList : Nat → List PyVal
  | 0 => []
  | n + 1 => PyVal.intVal :: intList n

/-- A tuple of 39 ints: its fingerprint is 41 bytes long, one more than
the inline buffer holds, so encoding it makes the writer grow. -/
def v39 : PyVal := .tupleVal (intList 39)

/-- A value shaped like the tuple (1, (2.0, None)). -/
def vNest1 : PyVal := .tupleVal [.intVal, .tupleVal [.floatVal, .noneVal]]

/-- A value shaped like the tuple ((1, 2.0), None). -/
def vNest2 : PyVal := .tupleVal [.tupleVal [.intVal, .floatVal], .noneVal]

/-- A resolver that always returns typecode 5. -/
def res5 : PyVal → Int := fun _ => 5

/-- A resolver that always returns typecode 7. -/
def res7 : PyVal → Int := fun _ => 7

/-- A resolver that always returns typecode 9. -/
def res9 : PyVal → Int := fun _ => 9

/-- A resolver that always fails, returning -1 (what _typecode_fallback
returns when the typeof_pyval call or the _code lookup raises). -/
def rNeg1 : PyVal → Int := fun _ => -1

/-- A resolver returning the invalid (negative) typecode -2. -/
def resNeg2 : PyVal → Int := fun _ => -2

/-- A rank-1 C-contiguous writable aligned int8 array. -/
def aryC1 : ArrayVal := ⟨1, true, false, true, true, ⟨1, 0, 0, 0⟩⟩

/-- A rank-1 C-contiguous READ-ONLY aligned int8 array. -/
def aryRO : ArrayVal := ⟨1, true, false, false, true, ⟨1, 0, 0, 0⟩⟩

/-- A rank-8 C-contiguous writable aligned int8 array: elementary element
kind but rank outside the fast-path range. -/
def ary8 : ArrayVal := ⟨8, true, false, true, true, ⟨1, 0, 0, 0⟩⟩

/-- The writer state after encoding a float value on a fresh writer (used
to discharge the cache-miss hypotheses of a witness). -/
def wFloat : Writer :=
  ⟨true, (List.replicate 40 0).set 0 OP_FLOAT, 1, 40, 0, false, [OP_FLOAT]⟩

/- Ghost-log lemmas: each writer operation appends exactly the bytes it
was asked to write to the emitted log, whatever the junk environment and
buffer state. -/

@[simp] theorem ensure_emitted (junk : Junk) (w : Writer) (b : Nat) :
    (string_writer_ensure junk w b).emitted = w.emitted := by
  unfold string_writer_ensure
  split_ifs <;> rfl

@[simp] theorem writeSeq_emitted (w : Writer) (bs : List Nat) :
    (writeSeq w bs).emitted = w.emitted ++ bs := rfl

@[simp] theorem put_char_emitted (junk : Junk) (w : Writer) (c : Nat) :
    (string_writer_put_char junk w c).emitted = w.emitted ++ [c] := by
  simp [string_writer_put_char]

@[simp] theorem put_int32_emitted (junk : Junk) (w : Writer) (v : Nat) :
    (string_writer_put_int32 junk w v).emitted = w.emitted ++ le32 v := by
  simp [string_writer_put_int32]

@[simp] theorem put_intp_emitted (junk : Junk) (w : Writer) (v : Nat) :
    (string_writer_put_intp junk w v).emitted = w.emitted ++ le64 v := by
  simp [string_writer_put_intp]

@[simp] theorem put_string_none_emitted (junk : Junk) (w : Writer) :
    (string_writer_put_string junk w Option.none).emitted = w.emitted ++ [0] := by
  simp [string_writer_put_string]

@[simp] theorem put_string_some_emitted (junk : Junk) (w : Writer) (bs : List Nat) :
    (string_writer_put_string junk w (Option.some bs)).emitted
      = w.emitted ++ (bs ++ [0]) := by
  simp [string_writer_put_string]

/-- The dtype encoder appends exactly dtype_bytes to the emitted log and
fails exactly when dtype_bytes does. -/
theorem compute_dtype_fingerprint_emitted (junk : Junk) (w : Writer) (d : DtypeDescr) :
    (compute_dtype_fingerprint junk w d).map Writer.emitted
      = (dtype_bytes d).map (fun bs => w.emitted ++ bs) := by
  unfold compute_dtype_fingerprint dtype_bytes
  split_ifs <;> simp

mutual

/-- The value encoder appends exactly fpBytes to the emitted log and fails
exactly when fpBytes does, for every junk environment and start state. -/
theorem compute_fingerprint_emitted (junk : Junk) (v : PyVal) (w : Writer) :
    (compute_fingerprint junk v w).map Writer.emitted
      = (fpBytes v).map (fun bs => w.emitted ++ bs) := by
  cases v with
  | tupleVal elts =>
      have h := fingerprint_elts_emitted junk elts
        (string_writer_put_char junk w OP_START_TUPLE)
      cases hfe : fingerprint_elts junk elts
          (string_writer_put_char junk w OP_START_TUPLE) with
      | none =>
          rw [hfe] at h
          rcases Option.map_eq_none'.mp h.symm with hnone
          simp [compute_fingerprint, fpBytes, hfe, hnone]
      | some w2 =>
          rw [hfe] at h
          rcases Option.map_eq_some'.mp h.symm with ⟨bs, hbs, hemit⟩
          simp only [compute_fingerprint, fpBytes, hfe, hbs, Option.map_some',
            put_char_emitted]
          rw [← hemit]
          simp
  | npScalarVal d =>
      have h := compute_dtype_fingerprint_emitted junk
        (string_writer_put_char junk w OP_NP_SCALAR) d
      cases hdb : dtype_bytes d with
      | none =>
          rw [hdb] at h
          simp only [Option.map_none'] at h
          rcases Option.map_eq_none'.mp h with hnone
          simp [compute_fingerprint, fpBytes, hdb, hnone]
      | some db =>
          rw [hdb] at h
          simp only [Option.map_some'] at h
          rcases Option.map_eq_some'.mp h with ⟨w2, hw2, hemit⟩
          simp [compute_fingerprint, fpBytes, hdb, hw2, hemit]
  | arrayVal a =>
      have h := compute_dtype_fingerprint_emitted junk
        (string_writer_put_char junk
          (string_writer_put_char junk
            (string_writer_put_int32 junk (string_writer_put_char junk w OP_NP_ARRAY) a.ndim)
            (if a.c_contig then 67 else if a.f_contig then 70 else 65))
          (if a.writeable then 87 else 82)) a.descr
      cases hdb : dtype_bytes a.descr with
      | none =>
          rw [hdb] at h
          simp only [Option.map_none'] at h
          rcases Option.map_eq_none'.mp h with hnone
          simp [compute_fingerprint, fpBytes, hdb, hnone]
      | some db =>
          rw [hdb] at h
          simp only [Option.map_some'] at h
          rcases Option.map_eq_some'.mp h with ⟨w2, hw2, hemit⟩
          simp only [put_char_emitted, put_int32_emitted] at hemit
          simp [compute_fingerprint, fpBytes, hdb, hw2, hemit]
  | dtypeVal d =>
      have h := compute_dtype_fingerprint_emitted junk
        (string_writer_put_char junk w OP_NP_DTYPE) d
      cases hdb : dtype_bytes d with
      | none =>
          rw [hdb] at h
          simp only [Option.map_none'] at h
          rcases Option.map_eq_none'.mp h with hnone
          simp [compute_fingerprint, fpBytes, hdb, hnone]
      | some db =>
          rw [hdb] at h
          simp only [Option.map_some'] at h
          rcases Option.map_eq_some'.mp h with ⟨w2, hw2, hemit⟩
          simp [compute_fingerprint, fpBytes, hdb, hw2, hemit]
  | bufferVal b =>
      cases hv : acquireView b with
      | none => simp [compute_fingerprint, fpBytes, hv]
      | some view =>
          cases hf : view.format with
          | none => simp [compute_fingerprint, fpBytes, hv, hf]
          | some bs => simp [compute_fingerprint, fpBytes, hv, hf]
  | noneVal => simp [compute_fingerprint, fpBytes]
  | boolVal b => simp [compute_fingerprint, fpBytes]
  | intVal => simp [compute_fingerprint, fpBytes]
  | floatVal => simp [compute_fingerprint, fpBytes]
  | complexVal => simp [compute_fingerprint, fpBytes]
  | bytesVal => simp [compute_fingerprint, fpBytes]
  | bytearrayVal => simp [compute_fingerprint, fpBytes]
  | opaqueVal => simp [compute_fingerprint, fpBytes]

/-- List version of compute_fingerprint_emitted for the tuple element
loop. -/
theorem fingerprint_elts_emitted (junk : Junk) (vs : List PyVal) (w : Writer) :
    (fingerprint_elts junk vs w).map Writer.emitted
      = (fpBytesList vs).map (fun bs => w.emitted ++ bs) := by
  cases vs with
  | nil => simp [fingerprint_elts, fpBytesList]
  | cons v rest =>
      have h := compute_fingerprint_emitted junk v w
      cases hcf : compute_fingerprint junk v w with
      | none =>
          rw [hcf] at h
          rcases Option.map_eq_none'.mp h.symm with hnone
          simp [fingerprint_elts, fpBytesList, hcf, hnone]
      | some w2 =>
          rw [hcf] at h
          rcases Option.map_eq_some'.mp h.symm with ⟨bs, hbs, hemit⟩
          have h2 := fingerprint_elts_emitted junk rest w2
          cases hrest : fpBytesList rest with
          | none =>
              rw [hrest] at h2
              simp only [Option.map_none'] at h2
              rcases Option.map_eq_none'.mp h2 with hnone2
              simp [fingerprint_elts, fpBytesList, hcf, hbs, hrest, hnone2]
          | some m =>
              rw [hrest] at h2
              simp only [Option.map_some'] at h2
              rcases Option.map_eq_some'.mp h2 with ⟨w3, hw3, hemit3⟩
              simp only [fingerprint_elts, fpBytesList, hcf, hbs, hrest, hw3,
                Option.map_some', hemit3]
              rw [← hemit]
              simp

end

set_option maxRecDepth 100000

/- Consequences of the agreement lemmas used by the claim theorems. -/

/-- A value without a byte stream is unrecognized at the writer level
too, for every junk environment and start state. -/
theorem compute_fingerprint_none (junk : Junk) (v : PyVal) (w : Writer)
    (h : fpBytes v = Option.none) :
    compute_fingerprint junk v w = Option.none := by
  have hagree := compute_fingerprint_emitted junk v w
  rw [h] at hagree
  simpa using Option.map_eq_none'.mp hagree

/-- A value with a byte stream is encoded successfully at the writer
level, for every junk environment and start state. -/
theorem compute_fingerprint_isSome (junk : Junk) (v : PyVal) (w : Writer)
    (h : ∃ bs, fpBytes v = Option.some bs) :
    ∃ w2, compute_fingerprint junk v w = Option.some w2 := by
  obtain ⟨bs, hbs⟩ := h
  have hagree := compute_fingerprint_emitted junk v w
  rw [hbs] at hagree
  rcases Option.map_eq_some'.mp hagree with ⟨w2, hw2, _⟩
  exact ⟨w2, hw2⟩

/-- A type_num at or above NPY_OBJECT is outside the fast-path table. -/
theorem dtype_num_to_typecode_ge17 {tn : Nat} (h : ¬ tn < 17) :
    dtype_num_to_typecode tn = -1 := by
  unfold dtype_num_to_typecode
  have h1 : tn ≠ 1 := by omega
  have h2 : tn ≠ 2 := by omega
  have h3 : tn ≠ 3 := by omega
  have h4 : tn ≠ 4 := by omega
  have h5 : tn ≠ 5 := by omega
  have h6 : tn ≠ 6 := by omega
  have h7 : tn ≠ 7 := by omega
  have h8 : tn ≠ 8 := by omega
  have h11 : tn ≠ 11 := by omega
  have h12 : tn ≠ 12 := by omega
  have h14 : tn ≠ 14 := by omega
  have h15 : tn ≠ 15 := by omega
  simp [h1, h2, h3, h4, h5, h6, h7, h8, h11, h12, h14, h15]

/-- Every type_num the fast-path table accepts is below NPY_OBJECT. -/
theorem dtype_num_to_typecode_nonneg {tn : Nat}
    (h : 0 ≤ dtype_num_to_typecode tn) : tn < 17 := by
  by_contra hc
  rw [dtype_num_to_typecode_ge17 hc] at h
  omega

/-- dtype_num_to_typecode only returns -1 or a table index. -/
theorem dtype_num_to_typecode_cases (tn : Nat) :
    dtype_num_to_typecode tn = -1 ∨ 0 ≤ dtype_num_to_typecode tn := by
  by_cases hlt : tn < 17
  · interval_cases tn <;> simp [dtype_num_to_typecode]
  · exact Or.inl (dtype_num_to_typecode_ge17 hlt)

/-- An array with an elementary element type has a byte stream. -/
theorem fpBytes_array_isSome (a : ArrayVal) (h : a.descr.type_num < 17) :
    ∃ bs, fpBytes (.arrayVal a) = Option.some bs := by
  simp only [fpBytes]
  rw [show dtype_bytes a.descr = Option.some [a.descr.type_num] from by
    simp [dtype_bytes, h]]
  exact ⟨_, rfl⟩

/-- An array value whose fpBytes is missing has an element type outside
the fast-path table. -/
theorem fpBytes_array_none_typecode (a : ArrayVal)
    (h : fpBytes (.arrayVal a) = Option.none) :
    dtype_num_to_typecode a.descr.type_num = -1 := by
  apply dtype_num_to_typecode_ge17
  intro hlt
  rw [fpBytes] at h
  rw [show dtype_bytes a.descr = Option.some [a.descr.type_num] from by
    simp [dtype_bytes, hlt]] at h
  simp at h

/- The claim theorems. -/

/-- C1: the spec demands encode determinism for all fingerprint lengths,
including those that outgrow the 40-byte inline buffer.  The code is
wrong there: string_writer_ensure mallocs a fresh block without copying
static_buf and never updates allocated, so the first 40 bytes of any
longer fingerprint are uninitialized heap memory.  At the 41-byte
fingerprint of a 39-element int tuple the output depends on the malloc
environment (first conjunct), consists of 40 junk bytes followed by the
closing parenthesis (second conjunct), and differs from the byte stream
the encoder actually emitted (third conjunct). -/
theorem claim_C1_growth_loses_bytes :
    typeof_compute_fingerprint junk0 v39 ≠ typeof_compute_fingerprint junk1 v39
    ∧ typeof_compute_fingerprint junk1 v39
        = Option.some (List.replicate 40 1 ++ [OP_END_TUPLE])
    ∧ (compute_fingerprint junk1 v39 string_writer_init).map Writer.emitted
        = Option.some (OP_START_TUPLE :: (List.replicate 39 OP_INT ++ [OP_END_TUPLE])) := by
  exact ⟨by decide, by decide, by decide⟩

/-- C2: the spec demands that a second typecode_of call on a
structurally-equivalent value hits the fingerprint cache and performs no
resolver call, also for fingerprints short enough for the inline buffer.
The code is wrong exactly there: the key is stored by memcpy of the stack
writer struct (line 467), so for an inline fingerprint the stored buf
dangles into the dead frame; once that memory changes (mem0 here) the
lookup misses and the resolver runs again.  Both calls on an int value
invoke the resolver once. -/
theorem claim_C2_second_call_resolves_again :
    (typeof_typecode res5 junk0 mem0 initial_state PyVal.intVal).resolverCalls = 1
    ∧ (typeof_typecode res5 junk0 mem0 initial_state PyVal.intVal).ret = 5
    ∧ (typeof_typecode res5 junk0 mem0
        (typeof_typecode res5 junk0 mem0 initial_state PyVal.intVal).state
        PyVal.intVal).resolverCalls = 1
    ∧ (typeof_typecode res5 junk0 mem0
        (typeof_typecode res5 junk0 mem0 initial_state PyVal.intVal).state
        PyVal.intVal).ret = 5 := by
  exact ⟨by decide, by decide, by decide, by decide⟩

/-- C5: the spec demands the stored cache key be an owned copy of the
fingerprint bytes, valid for the process lifetime.  The code is wrong for
inline fingerprints: after resolving an int value the single stored entry
carries a dangling static_buf pointer (isStatic), and once that stack
region holds other bytes (mem0) a lookup with byte-identical fingerprint
bytes no longer compares equal against the stored key. -/
theorem claim_C5_key_dangles :
    (typeof_typecode res5 junk0 mem0 initial_state PyVal.intVal).state.table
      = [⟨[OP_INT], true, 1, 5⟩]
    ∧ observed mem0 ⟨[OP_INT], true, 1, 5⟩ ≠ [OP_INT]
    ∧ lookup_fingerprint mem0 [⟨[OP_INT], true, 1, 5⟩] 1 [OP_INT] = Option.none := by
  exact ⟨by decide, by decide, by decide⟩

/-- C3 counterexample: the claim says the fast path classifies layout
with the same policy as the encoder.  A rank-1 C-contiguous aligned but
READ-ONLY int8 array refutes it: PyArray_ISCARRAY also requires
writability, so the fast path files it under the A slot while the
encoder writes the layout byte C. -/
theorem claim_C3_counterexample :
    fast_layout_char aryRO = 65 ∧ fingerprint_layout_char aryRO = 67
    ∧ fast_layout_char aryRO ≠ fingerprint_layout_char aryRO := by
  exact ⟨by decide, by decide, by decide⟩

/-- C4 counterexample: the claim says the four little-endian bytes encode
the full multiplier.  The code casts md->num through (char) first
(line 192), so multiplier 256 encodes as the same four zero bytes as
multiplier 0, not as the little-endian bytes of 256. -/
theorem claim_C4_counterexample :
    dtype_bytes ⟨21, 0, 10, 256⟩ = dtype_bytes ⟨21, 0, 10, 0⟩
    ∧ dtype_bytes ⟨21, 0, 10, 256⟩ ≠ Option.some ([21, 10] ++ le32 256) := by
  exact ⟨by decide, by decide⟩

/-- C7 counterexample: the claim says that after a miss resolved to an
invalid (negative) typecode the fast-path slot still behaves as unset and
a later call retries the resolver.  typecode_ndarray stores the raw
result (line 565): with a resolver returning -2 the slot afterwards holds
-2, and the second call returns -2 from the slot with zero resolver
calls instead of retrying. -/
theorem claim_C7_counterexample :
    (typecode_ndarray resNeg2 junk0 mem0 initial_state aryC1).ret = -2
    ∧ (typecode_ndarray resNeg2 junk0 mem0 initial_state aryC1).state.arycode 0 1 0 = -2
    ∧ (typecode_ndarray resNeg2 junk0 mem0
        (typecode_ndarray resNeg2 junk0 mem0 initial_state aryC1).state
        aryC1).resolverCalls = 0
    ∧ (typecode_ndarray resNeg2 junk0 mem0
        (typecode_ndarray resNeg2 junk0 mem0 initial_state aryC1).state
        aryC1).ret = -2 := by
  exact ⟨by decide, by decide, by decide, by decide⟩

/-- C6: when encoding fails with the unrecognized error (fpBytes none),
typeof_typecode clears it, calls the resolver exactly once, caches
nothing (the state is returned untouched) and returns whatever the
resolver produced; the error never surfaces. -/
theorem claim_C6_unrecognized_fallback :
    ∀ (v : PyVal) (resolver : PyVal → Int) (junk : Junk) (mem : List Nat)
      (st : TCState),
      fpBytes v = Option.none →
      typeof_typecode resolver junk mem st v = ⟨resolver v, st, 1⟩ := by
  intro v resolver junk mem st hfp
  have hcf := compute_fingerprint_none junk v string_writer_init hfp
  have key : typecode_using_fingerprint resolver junk mem st v
      = ⟨resolver v, st, 1⟩ := by
    unfold typecode_using_fingerprint
    rw [hcf]
  cases v with
  | arrayVal a =>
      have hdt : dtype_num_to_typecode a.descr.type_num = -1 :=
        fpBytes_array_none_typecode a hfp
      have key2 : typecode_ndarray resolver junk mem st a
          = ⟨resolver (.arrayVal a), st, 1⟩ := by
        unfold typecode_ndarray
        by_cases hnd : a.ndim = 0 ∨ 5 < a.ndim
        · rw [if_pos hnd]
          exact key
        · rw [if_neg hnd,
              if_pos (show dtype_num_to_typecode a.descr.type_num < 0 by
                rw [hdt]; omega)]
          exact key
      exact key2
  | noneVal => simp [fpBytes] at hfp
  | boolVal b => simp [fpBytes] at hfp
  | intVal => simp [fpBytes] at hfp
  | floatVal => simp [fpBytes] at hfp
  | complexVal => simp [fpBytes] at hfp
  | tupleVal elts => exact key
  | bytesVal => simp [fpBytes] at hfp
  | bytearrayVal => simp [fpBytes] at hfp
  | npScalarVal d => exact key
  | bufferVal b => exact key
  | dtypeVal d => exact key
  | opaqueVal => exact key

/-- C6 witness: an opaque value exposing no buffer protocol is
unrecognized, yet typeof_typecode returns the resolver result 9 with one
uncached resolver call. -/
theorem claim_C6_witness :
    fpBytes PyVal.opaqueVal = Option.none
    ∧ typeof_typecode res9 junk0 mem0 initial_state PyVal.opaqueVal
        = ⟨res9 PyVal.opaqueVal, initial_state, 1⟩ :=
  ⟨rfl, claim_C6_unrecognized_fallback PyVal.opaqueVal res9 junk0 mem0 initial_state rfl⟩

/-- C8: for every tuple the encoder emits the start-tuple byte, the
elements' encodings in order (fpBytesList concatenates the per-element
byte streams in order), the end-tuple byte and no length prefix; and the
7-byte encodings of values shaped (1,(2.0, None)) and ((1,2.0), None)
differ byte-for-byte. -/
theorem claim_C8_tuple_markers :
    (∀ (elts : List PyVal) (junk : Junk),
       (compute_fingerprint junk (.tupleVal elts) string_writer_init).map Writer.emitted
         = (fpBytesList elts).map (fun m => OP_START_TUPLE :: (m ++ [OP_END_TUPLE])))
    ∧ typeof_compute_fingerprint junk0 vNest1 ≠ typeof_compute_fingerprint junk0 vNest2
    ∧ typeof_compute_fingerprint junk0 vNest1
        = Option.some [OP_START_TUPLE, OP_INT, OP_START_TUPLE, OP_FLOAT, OP_NONE,
            OP_END_TUPLE, OP_END_TUPLE]
    ∧ typeof_compute_fingerprint junk0 vNest2
        = Option.some [OP_START_TUPLE, OP_START_TUPLE, OP_INT, OP_FLOAT, OP_END_TUPLE,
            OP_NONE, OP_END_TUPLE] := by
  refine ⟨?_, by decide, by decide, by decide⟩
  intro elts junk
  rw [compute_fingerprint_emitted]
  cases h : fpBytesList elts with
  | none => simp [fpBytes, h]
  | some m => simp [fpBytes, h, string_writer_init]

/-- C10: every value of the host bool type is fingerprinted with the
boolean tag byte and not the integer tag byte, even though it also
satisfies the PyLong_Check integer test, because PyBool_Check is tested
first (lines 204-207). -/
theorem claim_C10_bool_before_int :
    ∀ (v : PyVal) (junk : Junk),
      PyBool_Check v = true →
      typeof_compute_fingerprint junk v = Option.some [OP_BOOL]
      ∧ PyLong_Check v = true ∧ OP_BOOL ≠ OP_INT := by
  intro v junk h
  cases v
  case boolVal b => exact ⟨rfl, rfl, by decide⟩
  all_goals simp [PyBool_Check] at h

/-- C10 witness: the boolean value True. -/
theorem claim_C10_witness :
    PyBool_Check (PyVal.boolVal true) = true
    ∧ (typeof_compute_fingerprint junk0 (PyVal.boolVal true) = Option.some [OP_BOOL]
       ∧ PyLong_Check (PyVal.boolVal true) = true ∧ OP_BOOL ≠ OP_INT) :=
  ⟨rfl, claim_C10_bool_before_int (PyVal.boolVal true) junk0 rfl⟩

/-- C3 amended: the fast path classifies layout with the C-before-F
policy of the encoder only for writable, aligned arrays (PyArray_ISCARRAY
and ISFARRAY also demand NPY_ARRAY_BEHAVED); on those the two policies
coincide, and for every rank 1..5 and every elementary element kind a
freshly resolved array obtains the same typecode, namely the resolver
result, on the fast path and on the fingerprint path. -/
theorem claim_C3_amended :
    (∀ a : ArrayVal, a.writeable = true → a.aligned = true →
       fast_layout_char a = fingerprint_layout_char a)
    ∧ (∀ (a : ArrayVal) (resolver : PyVal → Int) (junk : Junk) (mem : List Nat),
        1 ≤ a.ndim → a.ndim ≤ 5 →
        0 ≤ dtype_num_to_typecode a.descr.type_num →
        (typecode_ndarray resolver junk mem initial_state a).ret
            = resolver (.arrayVal a)
        ∧ (typecode_using_fingerprint resolver junk mem initial_state
            (.arrayVal a)).ret = resolver (.arrayVal a)) := by
  constructor
  · rintro ⟨nd, c, f, wr, al, d⟩ hw ha
    cases hw
    cases ha
    cases c <;> cases f <;>
      simp [fast_layout_char, array_fast_layout, PyArray_ISCARRAY,
        PyArray_ISFARRAY, fingerprint_layout_char]
  · intro a resolver junk mem h1 h5 hdt
    constructor
    · unfold typecode_ndarray
      rw [if_neg (show ¬(a.ndim = 0 ∨ 5 < a.ndim) by omega),
          if_neg (show ¬(dtype_num_to_typecode a.descr.type_num < 0) by omega),
          if_pos (show initial_state.arycode (a.ndim - 1) (array_fast_layout a)
            (dtype_num_to_typecode a.descr.type_num).toNat = -1 from rfl)]
    · obtain ⟨w2, hw2⟩ := compute_fingerprint_isSome junk (.arrayVal a)
        string_writer_init (fpBytes_array_isSome a (dtype_num_to_typecode_nonneg hdt))
      unfold typecode_using_fingerprint
      rw [hw2]
      have hlk : lookup_fingerprint mem initial_state.table w2.n
          (w2.data.take w2.n) = Option.none := rfl
      dsimp only
      rw [hlk]
      dsimp only
      split <;> rfl

/-- C3 witness: a rank-1 C-contiguous writable aligned int8 array. -/
theorem claim_C3_witness :
    fast_layout_char aryC1 = fingerprint_layout_char aryC1
    ∧ (typecode_ndarray res5 junk0 mem0 initial_state aryC1).ret
        = res5 (.arrayVal aryC1)
    ∧ (typecode_using_fingerprint res5 junk0 mem0 initial_state
        (.arrayVal aryC1)).ret = res5 (.arrayVal aryC1) :=
  ⟨claim_C3_amended.1 aryC1 rfl rfl,
   (claim_C3_amended.2 aryC1 res5 junk0 mem0 (by decide) (by decide) (by decide)).1,
   (claim_C3_amended.2 aryC1 res5 junk0 mem0 (by decide) (by decide) (by decide)).2⟩

/-- C4 amended: for every temporal descriptor the encoder emits the tag
byte, the base as one byte, then four little-endian bytes of the
multiplier truncated through (char) and sign-extended to 32 bits
(line 192); only for multipliers in [0, 127] do those four bytes encode
the full value of the multiplier. -/
theorem claim_C4_amended :
    ∀ (d : DtypeDescr) (junk : Junk) (w : Writer),
      d.type_num = 21 ∨ d.type_num = 22 →
      ((compute_dtype_fingerprint junk w d).map Writer.emitted
         = Option.some (w.emitted ++
             ([d.type_num, d.base % 256] ++ le32 (c_uint_of_int (c_char_of_int d.num))))
       ∧ (0 ≤ d.num → d.num ≤ 127 →
           le32 (c_uint_of_int (c_char_of_int d.num)) = le32 d.num.toNat)) := by
  intro d junk w hd
  have hn17 : ¬ d.type_num < 17 := by omega
  have hn20 : ¬ d.type_num = 20 := by omega
  constructor
  · unfold compute_dtype_fingerprint
    rw [if_neg hn17, if_neg hn20, if_pos hd]
    simp [List.append_assoc]
  · intro h0 h127
    have hc : c_char_of_int d.num = d.num := by
      unfold c_char_of_int
      rw [Int.emod_eq_of_lt (by omega) (by omega)]
      omega
    rw [hc]
    unfold c_uint_of_int
    rw [Int.emod_eq_of_lt (by omega) (by omega)]

/-- C4 witness: a datetime descriptor with base 3 and multiplier 5. -/
theorem claim_C4_witness :
    (compute_dtype_fingerprint junk0 string_writer_init ⟨21, 0, 3, 5⟩).map Writer.emitted
      = Option.some (string_writer_init.emitted ++
          ([21, 3 % 256] ++ le32 (c_uint_of_int (c_char_of_int 5))))
    ∧ (0 ≤ (5 : Int) → (5 : Int) ≤ 127 →
        le32 (c_uint_of_int (c_char_of_int 5)) = le32 (Int.toNat 5)) :=
  claim_C4_amended ⟨21, 0, 3, 5⟩ junk0 string_writer_init (Or.inl rfl)

/-- C7 amended: on a fingerprint-cache miss a failing or invalid
(negative) resolver result is propagated and nothing is inserted, the
whole state returned untouched.  On the fast path the raw resolver
result is stored in the slot unconditionally; for the conventional
failure value -1 the stored value coincides with the unset sentinel, so
the fingerprint table is untouched, the slot still behaves as unset and
a later call retries the resolver, but (per the counterexample) other
negative values poison the slot. -/
theorem claim_C7_amended :
    (∀ (v : PyVal) (resolver : PyVal → Int) (junk : Junk) (mem : List Nat)
       (st : TCState) (w : Writer),
       resolver v < 0 →
       compute_fingerprint junk v string_writer_init = Option.some w →
       lookup_fingerprint mem st.table w.n (w.data.take w.n) = Option.none →
       typecode_using_fingerprint resolver junk mem st v = ⟨resolver v, st, 1⟩)
    ∧ (∀ (a : ArrayVal) (resolver : PyVal → Int) (junk : Junk) (mem : List Nat)
         (st : TCState),
       ¬(a.ndim = 0 ∨ 5 < a.ndim) →
       0 ≤ dtype_num_to_typecode a.descr.type_num →
       resolver (.arrayVal a) = -1 →
       st.arycode (a.ndim - 1) (array_fast_layout a)
         (dtype_num_to_typecode a.descr.type_num).toNat = -1 →
       (typecode_ndarray resolver junk mem st a).ret = -1
       ∧ (typecode_ndarray resolver junk mem st a).state.table = st.table
       ∧ (typecode_ndarray resolver junk mem st a).state.arycode (a.ndim - 1)
           (array_fast_layout a) (dtype_num_to_typecode a.descr.type_num).toNat = -1
       ∧ (typecode_ndarray resolver junk mem
           ((typecode_ndarray resolver junk mem st a).state) a).resolverCalls = 1) := by
  constructor
  · intro v resolver junk mem st w hneg hcf hlk
    unfold typecode_using_fingerprint
    rw [hcf]
    dsimp only
    rw [hlk]
    dsimp only
    rw [if_neg (by omega)]
  · intro a resolver junk mem st hnd hdt hres hslot
    have hstep : typecode_ndarray resolver junk mem st a
        = { ret := resolver (.arrayVal a),
            state := { st with arycode := fun i j k =>
              (if i = a.ndim - 1 ∧ j = array_fast_layout a
                  ∧ k = (dtype_num_to_typecode a.descr.type_num).toNat
               then resolver (.arrayVal a)
               else st.arycode i j k) },
            resolverCalls := 1 } := by
      unfold typecode_ndarray
      rw [if_neg hnd, if_neg (by omega), if_pos hslot]
    have hslot2 : (typecode_ndarray resolver junk mem st a).state.arycode
        (a.ndim - 1) (array_fast_layout a)
        (dtype_num_to_typecode a.descr.type_num).toNat = -1 := by
      rw [hstep]
      simp [hres]
    refine ⟨by rw [hstep, hres], by rw [hstep], hslot2, ?_⟩
    generalize hgen : (typecode_ndarray resolver junk mem st a).state = s2 at hslot2 ⊢
    unfold typecode_ndarray
    rw [if_neg hnd, if_neg (by omega), if_pos hslot2]

/-- C7 witness: an always-failing resolver (returning -1) on a float
value whose miss is propagated uncached, and on a fast-path array whose
slot remains the unset sentinel so the second call resolves again. -/
theorem claim_C7_witness :
    typecode_using_fingerprint rNeg1 junk0 mem0 initial_state PyVal.floatVal
      = ⟨rNeg1 PyVal.floatVal, initial_state, 1⟩
    ∧ ((typecode_ndarray rNeg1 junk0 mem0 initial_state aryC1).ret = -1
       ∧ (typecode_ndarray rNeg1 junk0 mem0 initial_state aryC1).state.table
           = initial_state.table
       ∧ (typecode_ndarray rNeg1 junk0 mem0 initial_state aryC1).state.arycode
           (aryC1.ndim - 1) (array_fast_layout aryC1)
           (dtype_num_to_typecode aryC1.descr.type_num).toNat = -1
       ∧ (typecode_ndarray rNeg1 junk0 mem0
           ((typecode_ndarray rNeg1 junk0 mem0 initial_state aryC1).state)
           aryC1).resolverCalls = 1) :=
  ⟨claim_C7_amended.1 PyVal.floatVal rNeg1 junk0 mem0 initial_state wFloat
     (by decide) (by decide) (by decide),
   claim_C7_amended.2 aryC1 rNeg1 junk0 mem0 initial_state
     (by decide) (by decide) (by decide) (by decide)⟩

/-- C9: the fast-path table is consulted exactly for arrays of rank 1..5
whose element kind is one of the 12 elementary kinds.  For every other
array (rank 0, rank above 5, or a dtype outside the table)
typecode_ndarray is literally the fingerprint path applied to the array
value itself, and on a fresh state with an elementary element type it
still succeeds, returning the resolver's valid typecode.  When the fast
path does apply, the fingerprint machinery is untouched: the fingerprint
table is unchanged and at most one resolver call happens. -/
theorem claim_C9_fast_path_applicability :
    ∀ (a : ArrayVal) (resolver : PyVal → Int) (junk : Junk) (mem : List Nat)
      (st : TCState),
      ((a.ndim = 0 ∨ 5 < a.ndim ∨ dtype_num_to_typecode a.descr.type_num = -1) →
         typecode_ndarray resolver junk mem st a
           = typecode_using_fingerprint resolver junk mem st (.arrayVal a)
         ∧ (a.descr.type_num < 17 → 0 ≤ resolver (.arrayVal a) →
             0 ≤ (typecode_ndarray resolver junk mem initial_state a).ret))
      ∧ (¬(a.ndim = 0 ∨ 5 < a.ndim ∨ dtype_num_to_typecode a.descr.type_num = -1) →
         (typecode_ndarray resolver junk mem st a).state.table = st.table
         ∧ (typecode_ndarray resolver junk mem st a).resolverCalls ≤ 1) := by
  intro a resolver junk mem st
  constructor
  · intro hout
    have hfall : ∀ st2 : TCState, typecode_ndarray resolver junk mem st2 a
        = typecode_using_fingerprint resolver junk mem st2 (.arrayVal a) := by
      intro st2
      unfold typecode_ndarray
      by_cases hnd : a.ndim = 0 ∨ 5 < a.ndim
      · rw [if_pos hnd]
      · rw [if_neg hnd,
            if_pos (show dtype_num_to_typecode a.descr.type_num < 0 by
              rcases hout with h | h | h
              · exact absurd (Or.inl h) hnd
              · exact absurd (Or.inr h) hnd
              · omega)]
    refine ⟨hfall st, ?_⟩
    intro h17 hres
    rw [hfall initial_state]
    obtain ⟨w2, hw2⟩ := compute_fingerprint_isSome junk (.arrayVal a)
      string_writer_init (fpBytes_array_isSome a h17)
    unfold typecode_using_fingerprint
    rw [hw2]
    have hlk : lookup_fingerprint mem initial_state.table w2.n
        (w2.data.take w2.n) = Option.none := rfl
    dsimp only
    rw [hlk]
    dsimp only
    split
    · exact hres
    · exact hres
  · intro hin
    have hnd : ¬(a.ndim = 0 ∨ 5 < a.ndim) := fun h => hin (h.imp id Or.inl)
    have hdt : ¬(dtype_num_to_typecode a.descr.type_num < 0) := by
      intro h
      rcases dtype_num_to_typecode_cases a.descr.type_num with he | he
      · exact hin (Or.inr (Or.inr he))
      · omega
    unfold typecode_ndarray
    rw [if_neg hnd, if_neg hdt]
    by_cases hslot : st.arycode (a.ndim - 1) (array_fast_layout a)
        (dtype_num_to_typecode a.descr.type_num).toNat = -1
    · rw [if_pos hslot]
      exact ⟨rfl, Nat.le_refl 1⟩
    · rw [if_neg hslot]
      exact ⟨rfl, Nat.zero_le 1⟩

/-- C9 witness: a rank-8 elementary-typed array bypasses the fast path
(it equals the fingerprint path) and, freshly resolved with typecode 7,
still succeeds. -/
theorem claim_C9_witness :
    typecode_ndarray res7 junk0 mem0 initial_state ary8
      = typecode_using_fingerprint res7 junk0 mem0 initial_state (.arrayVal ary8)
    ∧ 0 ≤ (typecode_ndarray res7 junk0 mem0 initial_state ary8).ret :=
  ⟨((claim_C9_fast_path_applicability ary8 res7 junk0 mem0 initial_state).1
      (by decide)).1,
   ((claim_C9_fast_path_applicability ary8 res7 junk0 mem0 initial_state).1
      (by decide)).2 (by decide) (by decide)⟩

end Typeof
